import Mathlib

/-!
Verification of the client-side chat runtime in `nydasbot/src/Chatbot.js`
(the `ChatApp` React component of the rag_based_chatbot repository).

The embedding translates the component's logic:
  * `sendMessage`            — outbound submit path (trim guard, WebSocket
                               send, store append, draft clear);
  * `websocket.current.onmessage` — inbound frame handler (JSON.parse,
                               `data.answer` truthiness check, store append);
  * `renderMessageAsMarkdown` — role-label prefixing, markdown expansion
                               (marked) and sanitization (DOMPurify);
  * the render expression `[...messages].reverse().map(...)`.

Platform and third-party behaviour that the component calls into but that is
not part of the repository is modelled explicitly:
  * `WebSocket.send` follows the WHATWG WebSocket standard: it throws
    `InvalidStateError` when the socket is CONNECTING, transmits when OPEN,
    and silently discards the data when CLOSING or CLOSED;
  * `JSON.parse` / `JSON.stringify` are given by a small executable JSON
    model (numbers restricted to integer literals — no claim involves
    fractional numbers);
  * `marked` is treated as an arbitrary function from a string to a markup
    forest (theorems quantify over it), and `DOMPurify.sanitize` is modelled
    from its documented default behaviour: an allow-list walk over the markup
    tree that removes disallowed elements, drops the entire subtree for
    script-like elements, and filters attributes.
JavaScript exceptions are modelled with `Except`: a `.error` result means the
exception propagated out of the translated function.
-/

namespace Chatbot

/-! ## JavaScript string primitives

Lean's built-in `String.startsWith` / `String.trim` work through byte
positions and substrings, which this Mathlib snapshot has no lemmas for;
the JS string methods are therefore translated at the character level,
where they agree with the JS semantics on the strings involved. -/

/-- JavaScript `String.prototype.startsWith`, translated at the character
level: `s.startsWith(pre)` holds iff the leading characters of `s` are
exactly `pre`.  (JS compares code units; on the strings involved here this
agrees with character comparison.) -/
def jsStartsWith (s pre : String) : Bool := pre.data.isPrefixOf s.data

/-- JavaScript `s.substring(n)`: the characters of `s` from index `n` on. -/
def jsSubstringFrom (s : String) (n : Nat) : String := String.mk (s.data.drop n)

/-- The code points JavaScript `String.prototype.trim` removes (WhiteSpace
and LineTerminator: tab, LF, VT, FF, CR, space, NBSP, BOM and the Unicode
space separators). -/
def jsWhitespace (c : Char) : Bool :=
  c == ' ' || c == '\t' || c == '\n' || (9 ≤ c.toNat && c.toNat ≤ 13) ||
  c == Char.ofNat 160 || c == Char.ofNat 0xfeff ||
  (0x2000 ≤ c.toNat && c.toNat ≤ 0x200a) ||
  c == Char.ofNat 0x2028 || c == Char.ofNat 0x2029 ||
  c == Char.ofNat 0x202f || c == Char.ofNat 0x205f ||
  c == Char.ofNat 0x1680 || c == Char.ofNat 0x3000

/-- JavaScript `s.trim()`, translated at the character level: strip leading
and trailing whitespace. -/
def jsTrim (s : String) : String :=
  String.mk (((s.data.dropWhile jsWhitespace).reverse.dropWhile
    jsWhitespace).reverse)

/-! ## Markup trees and the sanitizer (RenderPipeline, steps 2-3) -/

/-- A parsed markup (DOM) forest node: text, or an element with a tag,
attributes and children. -/
inductive Html where
  | text : String → Html
  | elem : String → List (String × String) → List Html → Html

/-- Modelled from the spec: DOMPurify's default element allow-list (the
library is a third-party dependency, not in `src/`).  A representative subset
of benign structural and text tags; crucially, `script` is not in it. -/
def allowedTags : List String :=
  ["a", "b", "blockquote", "br", "code", "div", "em", "h1", "h2", "h3",
   "h4", "h5", "h6", "hr", "i", "img", "li", "ol", "p", "pre", "span",
   "strong", "table", "tbody", "td", "th", "thead", "tr", "u", "ul"]

/-- Modelled from the spec: tags whose whole subtree DOMPurify removes
(`FORBID_CONTENTS`): their text content must not leak into the output. -/
def forbidContents : List String :=
  ["iframe", "noembed", "noframes", "noscript", "plaintext", "script",
   "style", "template", "title", "xmp"]

/-- Modelled from the spec: DOMPurify's default attribute allow-list
(subset); no `on*` event handler is in it. -/
def allowedAttrs : List String :=
  ["alt", "class", "href", "id", "src", "style", "title"]

/-- Attributes whose value is a URI and must not carry an executable
scheme. -/
def uriAttrs : List String := ["href", "src"]

/-- A `javascript:`-scheme URL after trimming (scheme matching simplified to
the lower-case spelling). -/
def isJsUrl (v : String) : Bool := jsStartsWith (jsTrim v) "javascript:"

/-- Modelled from the spec: DOMPurify's attribute filter — keep an attribute
iff its name is allow-listed and, for URI attributes, the value is not a
`javascript:` URL. -/
def keepAttr (a : String × String) : Bool :=
  allowedAttrs.contains a.1 && !(uriAttrs.contains a.1 && isJsUrl a.2)

/-- Modelled from the spec: DOMPurify's sanitization walk over a markup
forest.  An allow-listed element is kept with filtered attributes and
sanitized children; a forbidden-contents element is removed with its whole
subtree; any other disallowed element is removed but its (sanitized) children
are kept (DOMPurify's default `KEEP_CONTENT`). -/
def sanitizeList : List Html → List Html
  | [] => []
  | .text s :: rest => .text s :: sanitizeList rest
  | .elem tag attrs children :: rest =>
      if tag ∈ allowedTags then
        .elem tag (attrs.filter keepAttr) (sanitizeList children)
          :: sanitizeList rest
      else if tag ∈ forbidContents then
        sanitizeList rest
      else
        sanitizeList children ++ sanitizeList rest

/-- All element tags occurring anywhere in a markup forest. -/
def tagsOf : List Html → List String
  | [] => []
  | .text _ :: rest => tagsOf rest
  | .elem tag _ children :: rest => tag :: (tagsOf children ++ tagsOf rest)

theorem tagsOf_append (a b : List Html) :
    tagsOf (a ++ b) = tagsOf a ++ tagsOf b := by
  induction a with
  | nil => simp [tagsOf]
  | cons h t ih =>
      cases h with
      | text s => simpa [tagsOf] using ih
      | elem tag attrs children => simp [tagsOf, ih]

/-- Every tag surviving sanitization is on the allow-list. -/
theorem sanitizeList_tags_allowed (l : List Html) :
    ∀ t ∈ tagsOf (sanitizeList l), t ∈ allowedTags := by
  induction l using sanitizeList.induct with
  | case1 => intro t ht; simp [sanitizeList, tagsOf] at ht
  | case2 s rest ih =>
      intro t ht
      simp only [sanitizeList, tagsOf] at ht
      exact ih t ht
  | case3 tag attrs children rest hmem ih1 ih2 =>
      intro t ht
      simp only [sanitizeList, if_pos hmem, tagsOf] at ht
      rcases List.mem_cons.mp ht with h | h
      · exact h ▸ hmem
      · rcases List.mem_append.mp h with h' | h'
        · exact ih1 t h'
        · exact ih2 t h'
  | case4 tag attrs children rest hmem hforb ih =>
      intro t ht
      simp only [sanitizeList, if_neg hmem, if_pos hforb] at ht
      exact ih t ht
  | case5 tag attrs children rest hmem hforb ih1 ih2 =>
      intro t ht
      simp only [sanitizeList, if_neg hmem, if_neg hforb] at ht
      rw [tagsOf_append] at ht
      rcases List.mem_append.mp ht with h' | h'
      · exact ih1 t h'
      · exact ih2 t h'

/-! ## JSON (platform `JSON.parse` / `JSON.stringify`)

JSON values; numbers are restricted to integer literals (JS numbers are
floating point; no claim involves a non-integer numeric payload). -/

inductive Json where
  | null : Json
  | bool : Bool → Json
  | num : Int → Json
  | str : String → Json
  | arr : List Json → Json
  | obj : List (String × Json) → Json

/-- JavaScript exceptions that the translated handlers can raise. -/
inductive JsError where
  /-- `SyntaxError` thrown by `JSON.parse` on malformed input. -/
  | syntaxError : JsError
  /-- `TypeError` thrown by property access on `null`. -/
  | typeError : JsError
  /-- `InvalidStateError` thrown by `WebSocket.send` while CONNECTING. -/
  | invalidStateError : JsError
deriving Repr, DecidableEq

/-- JSON insignificant whitespace. -/
def jsonWs (c : Char) : Bool := c == ' ' || c == '\t' || c == '\n' || c == '\r'

def skipWs : List Char → List Char
  | [] => []
  | c :: cs => if jsonWs c then skipWs cs else c :: cs

def hexVal (c : Char) : Option Nat :=
  if '0' ≤ c ∧ c ≤ '9' then some (c.toNat - 48)
  else if 'a' ≤ c ∧ c ≤ 'f' then some (c.toNat - 87)
  else if 'A' ≤ c ∧ c ≤ 'F' then some (c.toNat - 55)
  else none

/-- Decode one JSON string escape (the part after the backslash). -/
def decodeEscape : List Char → Option (Char × List Char)
  | [] => none
  | e :: cs =>
    if e = '"' ∨ e = '\\' ∨ e = '/' then some (e, cs)
    else if e = 'b' then some (Char.ofNat 8, cs)
    else if e = 'f' then some (Char.ofNat 12, cs)
    else if e = 'n' then some ('\n', cs)
    else if e = 'r' then some ('\r', cs)
    else if e = 't' then some ('\t', cs)
    else if e = 'u' then
      match cs with
      | a :: b :: c :: d :: cs2 =>
        match hexVal a, hexVal b, hexVal c, hexVal d with
        | some x, some y, some z, some w =>
            some (Char.ofNat (((x * 16 + y) * 16 + z) * 16 + w), cs2)
        | _, _, _, _ => none
      | _ => none
    else none

/-- Parse the body of a JSON string literal (after the opening quote), up to
and including the closing quote. -/
def parseStrChars (fuel : Nat) (cs : List Char) : Option (List Char × List Char) :=
  match fuel with
  | 0 => none
  | f + 1 =>
    match cs with
    | [] => none
    | c :: cs1 =>
      if c = '"' then some ([], cs1)
      else
        match (if c = '\\' then decodeEscape cs1
               else if c.toNat < 32 then none
               else some (c, cs1)) with
        | none => none
        | some (d, rest) =>
          match parseStrChars f rest with
          | some (out, rem) => some (d :: out, rem)
          | none => none

def takeDigits : List Char → List Char × List Char
  | [] => ([], [])
  | c :: cs =>
    if '0' ≤ c ∧ c ≤ '9' then
      let (ds, rest) := takeDigits cs
      (c :: ds, rest)
    else ([], c :: cs)

def digitsToNat (ds : List Char) : Nat :=
  ds.foldl (fun acc c => acc * 10 + (c.toNat - 48)) 0

/-- Parse a JSON number literal (integer part only; a fractional or exponent
part is outside the model and rejected). -/
def parseNumber (cs : List Char) : Option (Json × List Char) :=
  let (neg, cs1) :=
    match cs with
    | c :: rest => if c = '-' then (true, rest) else (false, cs)
    | [] => (false, ([] : List Char))
  match takeDigits cs1 with
  | ([], _) => none
  | (d :: ds, rest) =>
    if d = '0' ∧ ds ≠ [] then none
    else
      let n : Int := digitsToNat (d :: ds)
      match rest with
      | c :: _ =>
          if c = '.' ∨ c = 'e' ∨ c = 'E' then none
          else some (.num (if neg then -n else n), rest)
      | [] => some (.num (if neg then -n else n), rest)

def stripToken (tok cs : List Char) : Option (List Char) :=
  if tok.isPrefixOf cs then some (cs.drop tok.length) else none

mutual

/-- Parse one JSON value.  `fuel` only bounds recursion depth; `parseJson`
supplies enough for any input of its length. -/
def parseValue (fuel : Nat) (cs : List Char) : Option (Json × List Char) :=
  match fuel with
  | 0 => none
  | f + 1 =>
    match skipWs cs with
    | [] => none
    | c :: cs1 =>
      if c = '"' then
        match parseStrChars f cs1 with
        | some (out, rem) => some (.str (String.mk out), rem)
        | none => none
      else if c = Char.ofNat 123 then parseObjBody f (skipWs cs1)
      else if c = '[' then parseArrBody f (skipWs cs1)
      else if c = 'n' then
        match stripToken ['u', 'l', 'l'] cs1 with
        | some rem => some (.null, rem)
        | none => none
      else if c = 't' then
        match stripToken ['r', 'u', 'e'] cs1 with
        | some rem => some (.bool true, rem)
        | none => none
      else if c = 'f' then
        match stripToken ['a', 'l', 's', 'e'] cs1 with
        | some rem => some (.bool false, rem)
        | none => none
      else parseNumber (c :: cs1)

/-- Parse an object body: input starts after the opening brace (and any
whitespace). -/
def parseObjBody (fuel : Nat) (cs : List Char) : Option (Json × List Char) :=
  match fuel with
  | 0 => none
  | f + 1 =>
    match cs with
    | [] => none
    | c :: cs1 =>
      if c = Char.ofNat 125 then some (.obj [], cs1)
      else
        match parseMembers f (c :: cs1) with
        | some (fields, rem) =>
          match skipWs rem with
          | c2 :: rem2 =>
              if c2 = Char.ofNat 125 then some (.obj fields, rem2) else none
          | [] => none
        | none => none

/-- Parse one or more `"key": value` members separated by commas. -/
def parseMembers (fuel : Nat) (cs : List Char) :
    Option (List (String × Json) × List Char) :=
  match fuel with
  | 0 => none
  | f + 1 =>
    match skipWs cs with
    | [] => none
    | c :: cs1 =>
      if c = '"' then
        match parseStrChars f cs1 with
        | some (key, rem) =>
          match skipWs rem with
          | c2 :: rem2 =>
            if c2 = ':' then
              match parseValue f rem2 with
              | some (v, rem3) =>
                match skipWs rem3 with
                | c3 :: rem4 =>
                  if c3 = ',' then
                    match parseMembers f rem4 with
                    | some (fields, rem5) =>
                        some ((String.mk key, v) :: fields, rem5)
                    | none => none
                  else some ([(String.mk key, v)], c3 :: rem4)
                | [] => some ([(String.mk key, v)], [])
              | none => none
            else none
          | [] => none
        | none => none
      else none

/-- Parse an array body: input starts after the opening bracket (and any
whitespace). -/
def parseArrBody (fuel : Nat) (cs : List Char) : Option (Json × List Char) :=
  match fuel with
  | 0 => none
  | f + 1 =>
    match cs with
    | [] => none
    | c :: cs1 =>
      if c = ']' then some (.arr [], cs1)
      else
        match parseElems f (c :: cs1) with
        | some (elems, rem) =>
          match skipWs rem with
          | c2 :: rem2 => if c2 = ']' then some (.arr elems, rem2) else none
          | [] => none
        | none => none

/-- Parse one or more array elements separated by commas. -/
def parseElems (fuel : Nat) (cs : List Char) :
    Option (List Json × List Char) :=
  match fuel with
  | 0 => none
  | f + 1 =>
    match parseValue f cs with
    | some (v, rem) =>
      match skipWs rem with
      | c :: rem2 =>
        if c = ',' then
          match parseElems f rem2 with
          | some (elems, rem3) => some (v :: elems, rem3)
          | none => none
        else some ([v], c :: rem2)
      | [] => some ([v], [])
    | none => none

end

/-- `JSON.parse`: parse a complete JSON document; `none` models the thrown
`SyntaxError`. -/
def parseJson (s : String) : Option Json :=
  match parseValue (2 * s.length + 8) s.data with
  | some (j, rem) => if skipWs rem = [] then some j else none
  | none => none

def hexDigit (n : Nat) : Char :=
  if n < 10 then Char.ofNat (48 + n) else Char.ofNat (87 + (n - 10))

/-- `JSON.stringify` escaping of one string character. -/
def escapeChar (c : Char) : String :=
  if c = '"' then "\\\""
  else if c = '\\' then "\\\\"
  else if c = '\n' then "\\n"
  else if c = '\r' then "\\r"
  else if c = '\t' then "\\t"
  else if c = Char.ofNat 8 then "\\b"
  else if c = Char.ofNat 12 then "\\f"
  else if c.toNat < 32 then
    "\\u00" ++ String.mk [hexDigit (c.toNat / 16), hexDigit (c.toNat % 16)]
  else String.singleton c

/-- `JSON.stringify` of a string value. -/
def jsonQuote (s : String) : String :=
  "\"" ++ String.join (s.data.map escapeChar) ++ "\""

/-- `JSON.stringify({ input })` — the outbound frame built by `sendMessage`
(property shorthand: the single key is `input`). -/
def stringifyInput (s : String) : String :=
  "\x7b\"input\":" ++ jsonQuote s ++ "\x7d"

/-- JavaScript property access `data.answer`: a lookup on objects (the last
duplicate key wins, as in `JSON.parse`); `undefined` (here `none`) on
strings, numbers, booleans and arrays; a thrown `TypeError` on `null`. -/
def jsMember (j : Json) (key : String) : Except JsError (Option Json) :=
  match j with
  | .obj fields => .ok (fields.reverse.lookup key)
  | .null => .error .typeError
  | _ => .ok none

/-- JavaScript truthiness of `data.answer` (`undefined`, `null`, `false`,
`0` and `""` are falsy). -/
def jsTruthy : Option Json → Bool
  | none => false
  | some .null => false
  | some (.bool b) => b
  | some (.num n) => n != 0
  | some (.str s) => s != ""
  | some (.arr _) => true
  | some (.obj _) => true

mutual

/-- JavaScript string coercion as in the template literal
`` `${data.answer}` ``. -/
def jsToDisplayString : Json → String
  | .null => "null"
  | .bool b => cond b "true" "false"
  | .num n => toString n
  | .str s => s
  | .arr elems => jsArrJoin elems
  | .obj _ => "[object Object]"

/-- `Array.prototype.toString`: elements joined with commas; a `null`
element contributes the empty string. -/
def jsArrJoin : List Json → String
  | [] => ""
  | [.null] => ""
  | [e] => jsToDisplayString e
  | .null :: rest => "," ++ jsArrJoin rest
  | e :: rest => jsToDisplayString e ++ "," ++ jsArrJoin rest

end

/-- The value of `` `${v}` `` for a possibly-undefined JS value. -/
def jsTemplate : Option Json → String
  | none => "undefined"
  | some j => jsToDisplayString j

/-! ## Connection and application state -/

/-- WebSocket `readyState` per the WHATWG standard (CONNECTING = 0,
OPEN = 1, CLOSING = 2, CLOSED = 3). -/
inductive ReadyState where
  | connecting : ReadyState
  | opened : ReadyState
  | closing : ReadyState
  | closed : ReadyState
deriving Repr, DecidableEq

/-- The component-local state of `ChatApp`: the two React state cells
`input` (the draft) and `messages` (the store), the platform socket's
`readyState`, and — model bookkeeping — the frames actually transmitted on
the wire. -/
structure AppState where
  input : String
  messages : List String
  readyState : ReadyState
  sentFrames : List String
deriving Repr, DecidableEq

/-- Modelled from the spec: `WebSocket.send` (a platform API, not repository
code) per the WHATWG standard — it throws `InvalidStateError` while
CONNECTING, transmits the data while OPEN, and silently discards it while
CLOSING or CLOSED.  `some data` means a frame was emitted, `none` that the
call returned normally without emitting one. -/
def wsSend (st : ReadyState) (data : String) : Except JsError (Option String) :=
  match st with
  | .connecting => .error .invalidStateError
  | .opened => .ok (some data)
  | .closing => .ok none
  | .closed => .ok none

/-! ## The outbound path: `sendMessage` (Chatbot.js lines 43-58) -/

/-- `sendMessage`: guard `if (input.trim())`, build
`JSON.stringify({ input })`, call `websocket.current.send(message)` (which
can throw), then append `` `You: ${input}` `` to `messages` and clear
`input`.  A `.error` result models the send exception propagating out of
`sendMessage` with the React state untouched (the statements after `send`
never run). -/
def sendMessage (s : AppState) : Except JsError AppState :=
  if jsTrim s.input = "" then .ok s
  else
    match wsSend s.readyState (stringifyInput s.input) with
    | .error e => .error e
    | .ok none =>
        .ok { s with messages := s.messages ++ ["You: " ++ s.input],
                     input := "" }
    | .ok (some frame) =>
        .ok { s with sentFrames := s.sentFrames ++ [frame],
                     messages := s.messages ++ ["You: " ++ s.input],
                     input := "" }

/-- The submit path as observed at the browser level: both the Enter key
handler and the Send button call `sendMessage`; if it throws, the exception
escapes the event handler and the React state is left as it was. -/
def submitCaught (s : AppState) : AppState :=
  match sendMessage s with
  | .ok s2 => s2
  | .error _ => s

/-! ## The inbound path: `websocket.current.onmessage` (lines 19-27) -/

/-- The `onmessage` handler: `JSON.parse(event.data)` (which throws
`SyntaxError` on malformed input — there is no try/catch around it), then
`if (data.answer)` (a JS truthiness test; the property access throws
`TypeError` when `data` is `null`), appending `` `${data.answer}` `` to
`messages`.  A `.error` result models the exception propagating out of the
handler. -/
def onmessage (msgs : List String) (raw : String) :
    Except JsError (List String) :=
  match parseJson raw with
  | none => .error .syntaxError
  | some data =>
    match jsMember data "answer" with
    | .error e => .error e
    | .ok v => .ok (if jsTruthy v then msgs ++ [jsTemplate v] else msgs)

/-! ## The render pipeline: `renderMessageAsMarkdown` (lines 68-93) -/

/-- `const isUserMessage = msg.startsWith('You: ')`. -/
def isUserMessage (msg : String) : Bool := jsStartsWith msg "You: "

/-- The role-labelled markdown document (step 1 of the pipeline): user
messages get the `You:` label with the `You: ` store prefix stripped
(`msg.substring(5)`), everything else the agent label. -/
def displayMessage (msg : String) : String :=
  if isUserMessage msg then "<b>You:</b><br />" ++ jsSubstringFrom msg 5
  else "<b>Nydas:</b><br />" ++ msg

/-- The full pipeline of `renderMessageAsMarkdown`: role-label prefixing,
markdown expansion by `marked` — a third-party black box, so the pipeline is
parametrised by an arbitrary `markedFn` standing for the parsed forest of
whatever HTML string `marked` produces — then DOMPurify sanitization. -/
def renderPipeline (markedFn : String → List Html) (msg : String) :
    List Html :=
  sanitizeList (markedFn (displayMessage msg))

/-- The message area of the render (line 112):
`[...messages].reverse().map((msg) => renderMessageAsMarkdown(msg))` — a
copy of the store, reversed, each entry rendered.  The second component
records the state rendering leaves behind: no setter is called on the render
path, so it is the input state itself. -/
def viewCompose (markedFn : String → List Html) (s : AppState) :
    List (List Html) × AppState :=
  ((s.messages.reverse).map (renderPipeline markedFn), s)

/-- The display order of the store entries (newest first). -/
def displayedList (s : AppState) : List String := s.messages.reverse

/-! ## Event-level semantics -/

/-- One external stimulus: the user typing `text` into the input (the
`onChange` handler) and committing it (Enter or the Send button, both of
which call `sendMessage`), or one inbound transport frame. -/
inductive Event where
  | userSend : String → Event
  | serverFrame : String → Event

/-- Browser-level step: an exception escaping a handler leaves the React
state as it was (the event loop logs it; no further statement of the
handler runs). -/
def stepEvent (s : AppState) : Event → AppState
  | .userSend t =>
      let s1 := { s with input := t }
      match sendMessage s1 with
      | .ok s2 => s2
      | .error _ => s1
  | .serverFrame raw =>
      match onmessage s.messages raw with
      | .ok m => { s with messages := m }
      | .error _ => s

def runEvents (s : AppState) : List Event → AppState
  | [] => s
  | e :: es => runEvents (stepEvent s e) es

/-- The store entry (if any) that one event appends, as a function of the
event and the pre-state: a committed non-blank draft appends its `You: `
entry unless the socket is still CONNECTING (where `send` throws first); an
inbound frame appends the coerced `answer` field when it parses and the
field is truthy. -/
def eventAppend (s : AppState) : Event → List String
  | .userSend t =>
      if jsTrim t = "" then []
      else if s.readyState = .connecting then []
      else ["You: " ++ t]
  | .serverFrame raw =>
      match parseJson raw with
      | none => []
      | some data =>
        match jsMember data "answer" with
        | .error _ => []
        | .ok v => if jsTruthy v then [jsTemplate v] else []

/-- The entries appended along a run, in operation order. -/
def appendsAlong (s : AppState) : List Event → List String
  | [] => []
  | e :: es => eventAppend s e ++ appendsAlong (stepEvent s e) es

theorem stepEvent_messages (s : AppState) (e : Event) :
    (stepEvent s e).messages = s.messages ++ eventAppend s e := by
  cases e with
  | userSend t =>
      by_cases ht : jsTrim t = ""
      · simp [stepEvent, sendMessage, eventAppend, ht]
      · cases hr : s.readyState <;>
          simp [stepEvent, sendMessage, eventAppend, wsSend, ht, hr]
  | serverFrame raw =>
      cases hp : parseJson raw with
      | none => simp [stepEvent, onmessage, eventAppend, hp]
      | some data =>
          cases hm : jsMember data "answer" with
          | error err => simp [stepEvent, onmessage, eventAppend, hp, hm]
          | ok v =>
              by_cases htr : jsTruthy v = true <;>
                simp [stepEvent, onmessage, eventAppend, hp, hm, htr]

/-! ## Claims -/

/-- C1: For every chat turn — in particular one whose text is the
adversarial `<script>alert(1)</script>`, whether it is a user turn (stored
with the `You: ` prefix) or an assistant turn — the rendering pipeline's
output after role-label prefixing, markdown expansion and DOMPurify
sanitization contains no `script` element; this holds for every input text
and for every markup forest the markdown expansion may produce. -/
theorem claim_C1_injection_safety
    (markedFn : String → List Html) (msg : String) :
    (tagsOf (renderPipeline markedFn msg)).contains "script" = false := by
  cases hco : (tagsOf (renderPipeline markedFn msg)).contains "script"
  · rfl
  · exfalso
    rcases List.contains_iff_exists_mem_beq.mp hco with ⟨b, hb, hbeq⟩
    have hb' : b = "script" := (beq_iff_eq.mp hbeq).symm
    subst hb'
    have hall := sanitizeList_tags_allowed (markedFn (displayMessage msg))
      "script" (by simpa [renderPipeline] using hb)
    revert hall
    decide

/-- C5: a draft that is empty or whitespace-only makes submit a strict
no-op: `sendMessage` returns normally with the state unchanged — no store
append, no transport frame, and the draft itself untouched. -/
theorem claim_C5_blank_suppression (s : AppState)
    (h : jsTrim s.input = "") : sendMessage s = .ok s := by
  simp [sendMessage, h]

theorem claim_C5_witness :
    sendMessage (AppState.mk "   " ["You: a"] .opened []) =
      .ok (AppState.mk "   " ["You: a"] .opened []) :=
  claim_C5_blank_suppression (AppState.mk "   " ["You: a"] .opened [])
    (by decide)

/-- C7: for every interleaved sequence of user sends and received answers,
the store lists exactly the entries the operations appended, in operation
order (append-only: the prior contents stay as an unchanged prefix), and
the displayed list is exactly the reverse of the stored order. -/
theorem claim_C7_ordering (s : AppState) (es : List Event) :
    (runEvents s es).messages = s.messages ++ appendsAlong s es ∧
    displayedList (runEvents s es) = ((runEvents s es).messages).reverse := by
  refine ⟨?_, rfl⟩
  induction es generalizing s with
  | nil => simp [runEvents, appendsAlong]
  | cons e es ih =>
      simp [runEvents, appendsAlong, ih, stepEvent_messages]

/-- C9: rendering a turn is a pure function of its text — rendering the
same turn twice yields identical sanitized output, and a view pass maps the
pipeline over the reversed store while leaving the application state
exactly as it was (no store or connection mutation). -/
theorem claim_C9_render_deterministic
    (markedFn : String → List Html) (s : AppState) (msg : String) :
    renderPipeline markedFn msg = renderPipeline markedFn msg ∧
    (viewCompose markedFn s).2 = s ∧
    (viewCompose markedFn s).1 =
      (displayedList s).map (renderPipeline markedFn) :=
  ⟨rfl, rfl, rfl⟩

/-- C2 counterexample: the handler wraps `JSON.parse` in no try/catch — on
the malformed frame `not-json` the SyntaxError propagates out of
`onmessage`, refuting "no exception propagates out of the handler". -/
theorem claim_C2_counterexample :
    onmessage ["You: q"] "not-json" = .error .syntaxError := rfl

/-- C2 amended: on a parse failure the frame is dropped and the message
store is unchanged, but the handler does not contain the error — the parse
exception propagates out of `onmessage` and only the browser event loop
around the handler contains it, leaving the state as it was. -/
theorem claim_C2_amended (s : AppState) (raw : String)
    (h : parseJson raw = none) :
    onmessage s.messages raw = .error .syntaxError ∧
    stepEvent s (.serverFrame raw) = s := by
  refine ⟨by simp [onmessage, h], ?_⟩
  simp [stepEvent, onmessage, h]

theorem claim_C2_witness :
    onmessage (AppState.mk "" ["a"] .opened []).messages "not-json" =
      .error .syntaxError ∧
    stepEvent (AppState.mk "" ["a"] .opened []) (.serverFrame "not-json") =
      AppState.mk "" ["a"] .opened [] :=
  claim_C2_amended (AppState.mk "" ["a"] .opened []) "not-json" rfl

/-- C3 counterexample: with the socket CLOSED — a non-Open state — a submit
of the non-blank draft `"hi"` does NOT fail with InvalidStateError:
`WebSocket.send` silently discards the data, `sendMessage` returns
normally, the user turn is appended and the draft IS cleared (while no
frame reaches the transport). -/
theorem claim_C3_counterexample :
    sendMessage (AppState.mk "hi" [] .closed []) =
      .ok (AppState.mk "" ["You: hi"] .closed []) := rfl

/-- C3 amended: restricted to the Connecting state — a submit with a
non-blank draft while CONNECTING throws InvalidStateError out of
`sendMessage`, so no frame is emitted and neither the store append nor the
draft clear happens (in Closing/Closed the send is instead silently
discarded and the submit proceeds). -/
theorem claim_C3_amended (s : AppState)
    (hne : jsTrim s.input ≠ "") (hc : s.readyState = .connecting) :
    sendMessage s = .error .invalidStateError ∧ submitCaught s = s := by
  refine ⟨by simp [sendMessage, wsSend, hne, hc], ?_⟩
  simp [submitCaught, sendMessage, wsSend, hne, hc]

theorem claim_C3_witness :
    sendMessage (AppState.mk "draft" [] .connecting []) =
      .error .invalidStateError ∧
    submitCaught (AppState.mk "draft" [] .connecting []) =
      AppState.mk "draft" [] .connecting [] :=
  claim_C3_amended (AppState.mk "draft" [] .connecting []) (by decide) rfl

/-- C4 counterexample: with the socket CLOSING, submitting the non-blank
draft `"ping"` transmits nothing (`send` silently discards the data and
returns normally), yet the store append and the draft clear both occur —
the three effects do not behave as one unit, and the draft is cleared
without a successful send. -/
theorem claim_C4_counterexample :
    sendMessage (AppState.mk "ping" ["You: a"] .closing []) =
      .ok (AppState.mk "" ["You: a", "You: ping"] .closing []) := rfl

/-- C4 amended: for a non-blank draft, when `send` throws (Connecting) none
of the three effects occurs; when `send` returns normally the store append
and the draft clear both occur, but the frame is actually transmitted only
in the Open state — in Closing/Closed it is silently discarded while the
append and clear still happen. -/
theorem claim_C4_amended (s : AppState) (hne : jsTrim s.input ≠ "") :
    (s.readyState = .connecting →
      sendMessage s = .error .invalidStateError) ∧
    (s.readyState = .opened →
      sendMessage s = .ok { s with
        sentFrames := s.sentFrames ++ [stringifyInput s.input],
        messages := s.messages ++ ["You: " ++ s.input],
        input := "" }) ∧
    ((s.readyState = .closing ∨ s.readyState = .closed) →
      sendMessage s = .ok { s with
        messages := s.messages ++ ["You: " ++ s.input],
        input := "" }) := by
  refine ⟨fun hc => by simp [sendMessage, wsSend, hne, hc],
          fun hc => by simp [sendMessage, wsSend, hne, hc],
          fun hc => ?_⟩
  rcases hc with hc | hc <;> simp [sendMessage, wsSend, hne, hc]

theorem claim_C4_witness :
    sendMessage (AppState.mk "yo" [] .opened []) =
      .ok (AppState.mk "" ["You: yo"] .opened [stringifyInput "yo"]) := by
  simpa using
    (claim_C4_amended (AppState.mk "yo" [] .opened []) (by decide)).2.1 rfl

/-- C6 counterexample: submitting the draft `" hi "` (non-blank after
trimming) stores `You:  hi ` and emits a frame whose `input` field is the
UNTRIMMED `" hi "` — not the trimmed text the claim promises (the code
trims only inside the guard `if (input.trim())` and sends/stores `input`
itself). -/
theorem claim_C6_counterexample :
    sendMessage (AppState.mk " hi " [] .opened []) =
      .ok (AppState.mk "" ["You:  hi "] .opened
        ["\x7b\"input\":\" hi \"\x7d"]) ∧
    parseJson "\x7b\"input\":\" hi \"\x7d" =
      some (.obj [("input", .str " hi ")]) ∧
    " hi " ≠ jsTrim " hi " :=
  ⟨rfl, rfl, by decide⟩

/-- C6 amended: for every submit whose draft is non-empty after trimming,
the frame carries `JSON.stringify` of the RAW draft and the store gains
`You: ` plus the RAW draft — leading/trailing whitespace included; the trim
is used only to decide whether to send at all. -/
theorem claim_C6_amended (s : AppState) (hne : jsTrim s.input ≠ "")
    (ho : s.readyState = .opened) :
    sendMessage s = .ok { s with
      sentFrames := s.sentFrames ++ [stringifyInput s.input],
      messages := s.messages ++ ["You: " ++ s.input],
      input := "" } := by
  simp [sendMessage, wsSend, hne, ho]

theorem claim_C6_witness :
    sendMessage (AppState.mk " a " [] .opened []) =
      .ok (AppState.mk "" ["You:  a "] .opened [stringifyInput " a "]) := by
  simpa using
    claim_C6_amended (AppState.mk " a " [] .opened []) (by decide) rfl

/-- C8 counterexample: the inbound frame `\x7b"answer":""\x7d` parses
successfully and contains an `answer` field, yet nothing is appended —
`if (data.answer)` is a JS truthiness test and the empty string is falsy,
refuting "an assistant turn with exactly that field's value is appended"
for a present field. -/
theorem claim_C8_counterexample :
    parseJson "\x7b\"answer\":\"\"\x7d" =
      some (.obj [("answer", .str "")]) ∧
    onmessage ["You: q"] "\x7b\"answer\":\"\"\x7d" = .ok ["You: q"] :=
  ⟨rfl, rfl⟩

/-- C8 amended: for a frame that parses, the handler appends the
string-coerced `answer` value iff the field is present AND truthy; a frame
whose `answer` is absent or falsy (empty string, `0`, `false`, `null`) is
ignored with the store unchanged; for the bare payload `null` the property
access itself throws a TypeError out of the handler. -/
theorem claim_C8_amended (msgs : List String) (raw : String) (j : Json)
    (hp : parseJson raw = some j) :
    (∀ v : Json, jsMember j "answer" = .ok (some v) →
        jsTruthy (some v) = true →
        onmessage msgs raw = .ok (msgs ++ [jsToDisplayString v])) ∧
    (∀ v : Option Json, jsMember j "answer" = .ok v → jsTruthy v = false →
        onmessage msgs raw = .ok msgs) ∧
    (j = .null → onmessage msgs raw = .error .typeError) := by
  refine ⟨fun v hm ht => ?_, fun v hm ht => ?_, ?_⟩
  · simp [onmessage, hp, hm, ht, jsTemplate]
  · simp [onmessage, hp, hm, ht]
  · rintro rfl
    simp [onmessage, hp, jsMember]

theorem claim_C8_witness :
    onmessage ["You: q"] "\x7b\"answer\":\"hi\"\x7d" = .ok ["You: q", "hi"] := by
  simpa using
    (claim_C8_amended ["You: q"] "\x7b\"answer\":\"hi\"\x7d"
      (.obj [("answer", .str "hi")]) rfl).1 (.str "hi") rfl rfl

/-- C10: the renderer classifies a stored message as a user turn iff it
begins with the five characters `You: ` — equivalently, iff it equals
`"You: " ++ rest` for some `rest`; such a message is displayed under the
`You:` label with that prefix stripped, and every other message is
displayed under the agent label unchanged.  The store keeps no role field,
so the textual test is the sole classifier: an assistant answer that
happens to begin with `You: ` satisfies the same characterization and is
rendered as a user turn. -/
theorem claim_C10_prefix_classification (msg : String) :
    (isUserMessage msg = true ↔ ∃ rest : String, msg = "You: " ++ rest) ∧
    (∀ rest : String, msg = "You: " ++ rest →
        displayMessage msg = "<b>You:</b><br />" ++ rest) ∧
    (isUserMessage msg = false →
        displayMessage msg = "<b>Nydas:</b><br />" ++ msg) := by
  have hpre : ∀ rest : String, isUserMessage ("You: " ++ rest) = true := by
    intro rest
    simp [isUserMessage, jsStartsWith, List.isPrefixOf_iff_prefix,
      String.data_append]
  refine ⟨⟨?_, ?_⟩, ?_, ?_⟩
  · intro h
    have hp : "You: ".data <+: msg.data := by
      simpa [isUserMessage, jsStartsWith,
        List.isPrefixOf_iff_prefix] using h
    rcases hp with ⟨t, ht⟩
    refine ⟨⟨t⟩, String.ext ?_⟩
    rw [String.data_append]
    exact ht.symm
  · rintro ⟨rest, rfl⟩
    exact hpre rest
  · rintro rest rfl
    simp only [displayMessage, hpre rest, if_true]
    congr 1
  · intro h
    simp [displayMessage, h]

theorem claim_C10_witness :
    isUserMessage "You: hello" = true ∧
    displayMessage "You: hello" = "<b>You:</b><br />hello" ∧
    isUserMessage "Nydas says hi" = false ∧
    displayMessage "Nydas says hi" = "<b>Nydas:</b><br />Nydas says hi" :=
  ⟨(claim_C10_prefix_classification "You: hello").1.mpr ⟨"hello", by decide⟩,
   (claim_C10_prefix_classification "You: hello").2.1 "hello" (by decide),
   by decide,
   (claim_C10_prefix_classification "Nydas says hi").2.2 (by decide)⟩

end Chatbot
